import Mathlib

/-!
Verification of the hotel-agent sample script
(`dev/samples/pre_post_processing/python/adk/agent.py`).

The script wires an LLM agent to a tool backend with two callbacks:
`enfore_business_rules` (pre-tool policy interceptor, name sic from the
source) and `enrich_response` (post-tool response enricher), plus
`run_chat_turn`, the turn driver that concatenates streamed text
fragments.  This file shallowly embeds the three functions and the
Python values they manipulate, and proves the spec's claims about them.

Python values (tool arguments and tool results) are embedded as the
inductive `PyVal`; Python dicts become association lists with unique
keys modelled by first-match lookup.  `datetime.fromisoformat` on the
date-only ISO form `YYYY-MM-DD` is embedded as a parser plus the
proleptic-Gregorian ordinal (`date.toordinal` semantics), so that
`(end - start).days` for two such dates is exactly the difference of
ordinals.  Exceptions become `Except String`; `None` returns become
`Option`.  Python's `deepcopy` followed by a key update is represented
by the pure `dictSet`: in this embedding all values are immutable, which
is precisely the guarantee `deepcopy` buys the source (the caller's
mapping is never mutated).
-/

/-- Embedded Python values: strings, integers, dicts (association
lists), and a catch-all `pynone` for `None`/other shapes. -/
inductive PyVal where
  | str : String → PyVal
  | int : Int → PyVal
  | dict : List (String × PyVal) → PyVal
  | pynone : PyVal

/-- Python dict membership: `k in d`. -/
def hasKey (d : List (String × PyVal)) (k : String) : Bool :=
  d.any (fun p => p.1 == k)

/-- Python `d.get(k, default)`: value of the first matching key, else
the default. -/
def dictGetD (d : List (String × PyVal)) (k : String) (dflt : PyVal) : PyVal :=
  match d with
  | [] => dflt
  | (k', v) :: t => if k' == k then v else dictGetD t k dflt

/-- Python `d[k] = v` on a dict with unique keys: replace the value at
the first matching key in place, or append the binding at the end. -/
def dictSet (d : List (String × PyVal)) (k : String) (v : PyVal) :
    List (String × PyVal) :=
  match d with
  | [] => [(k, v)]
  | (k', v') :: t => if k' == k then (k, v) :: t else (k', v') :: dictSet t k v

/-- Substring occurrence on character lists: `needle` occurs somewhere
inside `hay`. -/
def listContains (needle hay : List Char) : Bool :=
  match hay with
  | [] => needle == []
  | _ :: t => needle.isPrefixOf hay || listContains needle t

/-- Python `needle in hay` for strings. -/
def strContainsSub (hay needle : String) : Bool :=
  listContains needle.data hay.data

/-- Value of a decimal digit character, `none` if not a digit. -/
def digitVal (c : Char) : Option Nat :=
  if c.isDigit then some (c.toNat - 48) else none

/-- Four decimal digits as a number. -/
def parse4 (a b c d : Char) : Option Nat := do
  let x ← digitVal a
  let y ← digitVal b
  let z ← digitVal c
  let w ← digitVal d
  pure (1000 * x + 100 * y + 10 * z + w)

/-- Two decimal digits as a number. -/
def parse2 (a b : Char) : Option Nat := do
  let x ← digitVal a
  let y ← digitVal b
  pure (10 * x + y)

/-- Gregorian leap year. -/
def isLeap (y : Nat) : Bool :=
  (y % 4 == 0 && y % 100 != 0) || y % 400 == 0

/-- Number of days in month `m` of year `y`. -/
def daysInMonth (y m : Nat) : Nat :=
  if m == 2 then (if isLeap y then 29 else 28)
  else if m == 4 || m == 6 || m == 9 || m == 11 then 30
  else 31

/-- Days in the years before year `y` (proleptic Gregorian, year ≥ 1). -/
def daysBeforeYear (y : Nat) : Nat :=
  365 * (y - 1) + (y - 1) / 4 + (y - 1) / 400 - (y - 1) / 100

/-- Days in year `y` before the first of month `m`. -/
def daysBeforeMonth (y m : Nat) : Nat :=
  let base :=
    match m with
    | 1 => 0 | 2 => 31 | 3 => 59 | 4 => 90 | 5 => 120 | 6 => 151
    | 7 => 181 | 8 => 212 | 9 => 243 | 10 => 273 | 11 => 304 | _ => 334
  if 3 ≤ m ∧ isLeap y then base + 1 else base

/-- Python `date(y, m, d).toordinal()`: day number in the proleptic
Gregorian calendar, with 0001-01-01 as day 1. -/
def toordinal (y m d : Nat) : Nat :=
  daysBeforeYear y + daysBeforeMonth y m + d

/-- Parse a date-only ISO string `YYYY-MM-DD`, validating ranges the
way `datetime` does (year 1–9999, month 1–12, day within the month). -/
def parseISODate (s : String) : Option (Nat × Nat × Nat) :=
  match s.data with
  | [a, b, c, d, h1, e, f, h2, g, h] =>
    if h1 == '-' && h2 == '-' then
      match parse4 a b c d, parse2 e f, parse2 g h with
      | some y, some mo, some dy =>
        if 1 ≤ y ∧ 1 ≤ mo ∧ mo ≤ 12 ∧ 1 ≤ dy ∧ dy ≤ daysInMonth y mo then
          some (y, mo, dy)
        else none
      | _, _, _ => none
    else none
  | _ => none

/-- `datetime.fromisoformat(v)` for a date-only string, returning the
date's ordinal.  A non-string argument raises `TypeError`; a malformed
or out-of-range string raises `ValueError`.  Exceptions are embedded as
`Except.error`. -/
def fromisoformat (v : PyVal) : Except String Nat :=
  match v with
  | .str s =>
    match parseISODate s with
    | some (y, mo, dy) => .ok (toordinal y mo dy)
    | none => .error ("ValueError: Invalid isoformat string: " ++ s)
  | _ => .error "TypeError: fromisoformat: argument must be str"

/-- The replacement result the interceptor returns when it blocks a
call. -/
def blockedResult : PyVal :=
  PyVal.dict [("result", PyVal.str "Error: Maximum stay duration is 14 days.")]

/-- The pre-tool callback `enfore_business_rules` (name sic).  For the
`update-hotel` tool with both date arguments present it parses them
(`datetime.fromisoformat`, which may raise) and computes
`(end - start).days`; a duration strictly above 14 yields a replacement
result, otherwise `None`.  Python exceptions are `Except.error`. -/
def enfore_business_rules (tool_name : String)
    (args : List (String × PyVal)) : Except String (Option PyVal) :=
  if tool_name == "update-hotel" && hasKey args "checkin_date"
      && hasKey args "checkout_date" then
    match fromisoformat (dictGetD args "checkin_date" PyVal.pynone) with
    | .error e => .error e
    | .ok start =>
      match fromisoformat (dictGetD args "checkout_date" PyVal.pynone) with
      | .error e => .error e
      | .ok stop =>
        let duration : Int := (stop : Int) - (start : Int)
        if duration > 14 then .ok (some blockedResult)
        else .ok none
  else .ok none

/-- The fixed loyalty-point bonus of the enricher. -/
def loyalty_bonus : Nat := 500

/-- The f-string the enricher builds around the original result text. -/
def enrich_text (result : String) : String :=
  "Booking Confirmed!\n You earned " ++ toString loyalty_bonus
    ++ " Loyalty Points with this stay.\n\nSystem Details: " ++ result

/-- First phase of `enrich_response`: extract the `result` value from
the tool response (`tool_response.get("result", "")` for a dict, the
string itself for a string, `None`-return for any other shape). -/
def extractResult (tool_response : PyVal) : Option PyVal :=
  match tool_response with
  | .dict d => some (dictGetD d "result" (PyVal.str ""))
  | .str s => some (PyVal.str s)
  | _ => none

/-- The post-tool callback `enrich_response`.  For the `book-hotel`
tool whose extracted result is a string without the `"Error"` marker it
returns the enriched result (a fresh dict with only the `result` field
replaced when the response was a dict, the enriched string otherwise);
in every other case it returns `None`. -/
def enrich_response (tool_name : String) (tool_response : PyVal) :
    Option PyVal :=
  match extractResult tool_response with
  | none => none
  | some result =>
    match result with
    | .str r =>
      if strContainsSub r "Error" then none
      else if tool_name == "book-hotel" then
        match tool_response with
        | .dict d => some (PyVal.dict (dictSet d "result" (PyVal.str (enrich_text r))))
        | _ => some (PyVal.str (enrich_text r))
      else none
    | _ => none

/-- A text part of a response event (`types.Part.text`). -/
structure TextPart where
  text : Option String

/-- The content of a response event (`event.content.parts`; both the
content and the parts list may be absent). -/
structure EventContent where
  parts : Option (List TextPart)

/-- A response event streamed by `runner.run_async`. -/
structure Event where
  content : Option EventContent

/-- One step of the inner loop of `run_chat_turn`:
`if part.text: response_text += part.text` (Python truthiness: `None`
and the empty string are both falsy). -/
def collectText (acc : String) (p : TextPart) : String :=
  match p.text with
  | some t => if t == "" then acc else acc ++ t
  | none => acc

/-- One iteration of the outer loop of `run_chat_turn`:
`if event.content and event.content.parts:` (content must not be
`None`, the parts list must be neither `None` nor empty), then the
inner loop over the parts. -/
def processEvent (acc : String) (ev : Event) : String :=
  match ev.content with
  | some c =>
    match c.parts with
    | some ps => if ps.isEmpty then acc else ps.foldl collectText acc
    | none => acc
  | none => acc

/-- The turn driver `run_chat_turn`, modelled on the finite sequence of
events the runtime streams back: accumulate every truthy text fragment
of every event that has truthy content and parts, in arrival order.
The returned string is the one the source prints. -/
def run_chat_turn (events : List Event) : String :=
  events.foldl processEvent ""

/-- The text fragments an event carries: the `text` of each of its
parts, in order (an event without content or without parts carries
none). -/
def eventFragments (ev : Event) : List String :=
  match ev.content with
  | some c => (c.parts.getD []).filterMap (fun p => p.text)
  | none => []

/-- Concatenation of a list of strings in order. -/
def concatAll : List String → String
  | [] => ""
  | s :: t => s ++ concatAll t

/-! ### Helper lemmas -/

/-- `listContains` decides list-infix occurrence. -/
theorem listContains_iff_infix (needle hay : List Char) :
    listContains needle hay = true ↔ needle <:+: hay := by
  induction hay with
  | nil => simp [listContains, List.infix_nil]
  | cons a t ih =>
    simp [listContains, ih, List.infix_cons_iff, List.isPrefixOf_iff_prefix]

/-- `strContainsSub` decides substring occurrence on the character
data. -/
theorem strContainsSub_iff (hay needle : String) :
    strContainsSub hay needle = true ↔ needle.data <:+: hay.data :=
  listContains_iff_infix needle.data hay.data

/-- A needle occurring in a string occurs in any right-extension. -/
theorem strContainsSub_append_right (a b needle : String)
    (h : strContainsSub a needle = true) :
    strContainsSub (a ++ b) needle = true := by
  rw [strContainsSub_iff] at h ⊢
  rw [String.data_append]
  exact h.trans (List.prefix_append a.data b.data).isInfix

/-- A string occurs as a substring of anything it is appended to. -/
theorem strContainsSub_append_self (a b : String) :
    strContainsSub (a ++ b) b = true := by
  rw [strContainsSub_iff, String.data_append]
  exact (List.suffix_append a.data b.data).isInfix

/-- Updating a key and reading it back yields the new value. -/
theorem dictGetD_dictSet_same (d : List (String × PyVal)) (k : String)
    (v dflt : PyVal) : dictGetD (dictSet d k v) k dflt = v := by
  induction d with
  | nil => simp [dictSet, dictGetD]
  | cons p t ih =>
    by_cases h : p.1 = k
    · simp [dictSet, dictGetD, h]
    · simp [dictSet, dictGetD, h, ih]

/-- Updating one key leaves every other key's value unchanged. -/
theorem dictGetD_dictSet_ne (d : List (String × PyVal)) (k k' : String)
    (v dflt : PyVal) (h : k' ≠ k) :
    dictGetD (dictSet d k v) k' dflt = dictGetD d k' dflt := by
  induction d with
  | nil => simp [dictSet, dictGetD, h, Ne.symm h]
  | cons p t ih =>
    by_cases hp : p.1 = k
    · simp [dictSet, dictGetD, hp, h, Ne.symm h]
    · simp [dictSet, dictGetD, hp, ih]

/-- Reading an absent key yields the default. -/
theorem dictGetD_of_not_hasKey (d : List (String × PyVal)) (k : String)
    (dflt : PyVal) (h : hasKey d k = false) : dictGetD d k dflt = dflt := by
  induction d with
  | nil => rfl
  | cons p t ih =>
    simp [hasKey] at h
    have ht : hasKey t k = false := by
      simp [hasKey]
      exact h.2
    simp [dictGetD, h.1, ih ht]

/-- Behaviour of the interceptor on the update tool once both dates
parse: it blocks exactly when the day difference exceeds 14. -/
theorem enforce_chara (args : List (String × PyVal)) (n1 n2 : Nat)
    (h1 : hasKey args "checkin_date" = true)
    (h2 : hasKey args "checkout_date" = true)
    (hp1 : fromisoformat (dictGetD args "checkin_date" PyVal.pynone) = .ok n1)
    (hp2 : fromisoformat (dictGetD args "checkout_date" PyVal.pynone) = .ok n2) :
    enfore_business_rules "update-hotel" args =
      if (14 : Int) < (n2 : Int) - (n1 : Int) then .ok (some blockedResult)
      else .ok none := by
  unfold enfore_business_rules
  simp [h1, h2, hp1, hp2]

/-! ### Claims about the policy interceptor -/

/-- Modelled from the spec's words for the refinement check of the
claim about the stay-duration rule: the "inclusive day span" of a stay,
i.e. the number of calendar days from the check-in date to the
check-out date with both endpoint days counted
(`checkout − checkin + 1` on ordinals). -/
def inclusiveDaySpan (checkin checkout : Nat) : Int :=
  (checkout : Int) - (checkin : Int) + 1

/-- Claim C1 counterexample: the claim, read with "inclusive day span",
fails at checkin 2025-01-01, checkout 2025-01-15.  That stay has an
inclusive day span of 15 days, which exceeds 14, yet the interceptor
returns nothing instead of the replacement mapping: the code compares
the exclusive day difference `(end - start).days = 14` against 14. -/
theorem enforce_inclusive_span_cex :
    fromisoformat (PyVal.str "2025-01-01") = .ok (toordinal 2025 1 1) ∧
    fromisoformat (PyVal.str "2025-01-15") = .ok (toordinal 2025 1 15) ∧
    inclusiveDaySpan (toordinal 2025 1 1) (toordinal 2025 1 15) > 14 ∧
    enfore_business_rules "update-hotel"
      [("checkin_date", PyVal.str "2025-01-01"),
       ("checkout_date", PyVal.str "2025-01-15")] = .ok none :=
  ⟨by rfl, by rfl, by decide, by rfl⟩

/-- Claim C1 (amended): for the update tool with both dates present and
parseable, the interceptor computes the day difference
`checkout − checkin` (the `.days` of the datetime difference); if that
difference exceeds 14 it returns a replacement mapping whose result
text contains "Maximum stay duration is 14 days", and if it is at most
14 it returns nothing. -/
theorem enforce_threshold (args : List (String × PyVal)) (n1 n2 : Nat)
    (h1 : hasKey args "checkin_date" = true)
    (h2 : hasKey args "checkout_date" = true)
    (hp1 : fromisoformat (dictGetD args "checkin_date" PyVal.pynone) = .ok n1)
    (hp2 : fromisoformat (dictGetD args "checkout_date" PyVal.pynone) = .ok n2) :
    ((14 : Int) < (n2 : Int) - (n1 : Int) →
      enfore_business_rules "update-hotel" args = .ok (some blockedResult) ∧
      blockedResult = PyVal.dict
        [("result", PyVal.str "Error: Maximum stay duration is 14 days.")] ∧
      strContainsSub "Error: Maximum stay duration is 14 days."
        "Maximum stay duration is 14 days" = true) ∧
    ((n2 : Int) - (n1 : Int) ≤ 14 →
      enfore_business_rules "update-hotel" args = .ok none) := by
  have hch := enforce_chara args n1 n2 h1 h2 hp1 hp2
  constructor
  · intro hgt
    rw [hch, if_pos hgt]
    exact ⟨rfl, rfl, by decide⟩
  · intro hle
    rw [hch, if_neg (by omega)]

/-- Claim C1 witness: the spec's own scenario, checkin 2025-01-18 and
checkout 2025-02-10 (difference 23 days), is blocked with the
error-text replacement. -/
theorem enforce_threshold_witness :
    enfore_business_rules "update-hotel"
      [("checkin_date", PyVal.str "2025-01-18"),
       ("checkout_date", PyVal.str "2025-02-10")] = .ok (some blockedResult) :=
  ((enforce_threshold
      [("checkin_date", PyVal.str "2025-01-18"),
       ("checkout_date", PyVal.str "2025-02-10")]
      (toordinal 2025 1 18) (toordinal 2025 2 10)
      (by rfl) (by rfl) (by rfl) (by rfl)).1 (by decide)).1

/-- Claim C8: the interceptor never validates date ordering: for the
update tool with both dates present and parsed, any day difference of
at most 14 — zero and negative included — yields nothing, and the call
proceeds unmodified. -/
theorem enforce_no_date_ordering (args : List (String × PyVal)) (n1 n2 : Nat)
    (h1 : hasKey args "checkin_date" = true)
    (h2 : hasKey args "checkout_date" = true)
    (hp1 : fromisoformat (dictGetD args "checkin_date" PyVal.pynone) = .ok n1)
    (hp2 : fromisoformat (dictGetD args "checkout_date" PyVal.pynone) = .ok n2)
    (hle : (n2 : Int) - (n1 : Int) ≤ 14) :
    enfore_business_rules "update-hotel" args = .ok none := by
  rw [enforce_chara args n1 n2 h1 h2 hp1 hp2, if_neg (by omega)]

/-- Claim C8 witness: a checkout five days before the checkin
(difference −5) is let through. -/
theorem enforce_no_date_ordering_witness :
    enfore_business_rules "update-hotel"
      [("checkin_date", PyVal.str "2025-01-10"),
       ("checkout_date", PyVal.str "2025-01-05")] = .ok none :=
  enforce_no_date_ordering
    [("checkin_date", PyVal.str "2025-01-10"),
     ("checkout_date", PyVal.str "2025-01-05")]
    (toordinal 2025 1 10) (toordinal 2025 1 5)
    (by rfl) (by rfl) (by rfl) (by rfl) (by decide)

/-- Claim C4: an argument mapping missing the checkin date field or the
checkout date field, or any tool other than `update-hotel`, makes the
interceptor return nothing, so the call proceeds unmodified. -/
theorem enforce_skip_none (tool_name : String) (args : List (String × PyVal))
    (h : tool_name ≠ "update-hotel" ∨ hasKey args "checkin_date" = false
        ∨ hasKey args "checkout_date" = false) :
    enfore_business_rules tool_name args = .ok none := by
  unfold enfore_business_rules
  rcases h with h | h | h <;> simp [h]

/-- Claim C4 witness: the booking tool with only a hotel id is not
intercepted. -/
theorem enforce_skip_none_witness :
    enfore_business_rules "book-hotel" [("hotel_id", PyVal.int 3)] = .ok none :=
  enforce_skip_none "book-hotel" [("hotel_id", PyVal.int 3)]
    (Or.inl (by decide))

/-- Claim C6: a malformed checkin or checkout date string makes the
interceptor fail loudly with a date-parse error (`Except.error`, the
embedding of the uncaught Python exception) rather than returning
nothing. -/
theorem enforce_malformed_raises (args : List (String × PyVal)) (s1 s2 : String)
    (h1 : hasKey args "checkin_date" = true)
    (h2 : hasKey args "checkout_date" = true)
    (hv1 : dictGetD args "checkin_date" PyVal.pynone = PyVal.str s1)
    (hv2 : dictGetD args "checkout_date" PyVal.pynone = PyVal.str s2)
    (hbad : parseISODate s1 = none ∨ parseISODate s2 = none) :
    ∃ e, enfore_business_rules "update-hotel" args = .error e := by
  unfold enfore_business_rules
  rcases hbad with hb | hb
  · exact ⟨"ValueError: Invalid isoformat string: " ++ s1,
      by simp [h1, h2, hv1, fromisoformat, hb]⟩
  · cases hq : parseISODate s1 with
    | none =>
      exact ⟨"ValueError: Invalid isoformat string: " ++ s1,
        by simp [h1, h2, hv1, fromisoformat, hq]⟩
    | some p =>
      exact ⟨"ValueError: Invalid isoformat string: " ++ s2,
        by simp [h1, h2, hv1, hv2, fromisoformat, hq, hb]⟩

/-- Claim C6 witness: an out-of-range month ("2025-13-01") raises. -/
theorem enforce_malformed_raises_witness :
    ∃ e, enfore_business_rules "update-hotel"
      [("checkin_date", PyVal.str "2025-13-01"),
       ("checkout_date", PyVal.str "2025-02-10")] = .error e :=
  enforce_malformed_raises
    [("checkin_date", PyVal.str "2025-13-01"),
     ("checkout_date", PyVal.str "2025-02-10")]
    "2025-13-01" "2025-02-10"
    (by rfl) (by rfl) (by rfl) (by rfl) (Or.inl (by rfl))

/-! ### Claims about the response enricher -/

/-- The enriched text is a fixed prefix followed by the original
result text. -/
theorem enrich_text_eq (result : String) :
    enrich_text result =
      "Booking Confirmed!\n You earned 500 Loyalty Points with this stay.\n\nSystem Details: "
        ++ result := rfl

/-- Claim C2: for a successful booking result shaped as a mapping, the
enricher returns a new mapping in which only the `result` field is
replaced — reading any other key gives the original value — and the new
`result` field contains the fixed loyalty-point value 500 and the
original result text verbatim.  The source guards the original mapping
with `deepcopy` before the update; in this embedding all values are
immutable, so the input mapping `d` itself is untouched by
construction, which is exactly the no-aliasing guarantee the claim
states. -/
theorem enrich_dict_success (d : List (String × PyVal)) (r : String)
    (hget : dictGetD d "result" (PyVal.str "") = PyVal.str r)
    (herr : strContainsSub r "Error" = false) :
    enrich_response "book-hotel" (PyVal.dict d)
        = some (PyVal.dict (dictSet d "result" (PyVal.str (enrich_text r)))) ∧
    dictGetD (dictSet d "result" (PyVal.str (enrich_text r))) "result" PyVal.pynone
        = PyVal.str (enrich_text r) ∧
    (∀ k dflt, k ≠ "result" →
        dictGetD (dictSet d "result" (PyVal.str (enrich_text r))) k dflt
          = dictGetD d k dflt) ∧
    strContainsSub (enrich_text r) "500 Loyalty Points" = true ∧
    strContainsSub (enrich_text r) r = true := by
  refine ⟨?_, dictGetD_dictSet_same d "result" _ PyVal.pynone,
      fun k dflt hk => dictGetD_dictSet_ne d "result" k _ dflt hk, ?_, ?_⟩
  · unfold enrich_response extractResult
    simp [hget, herr]
  · rw [enrich_text_eq]
    exact strContainsSub_append_right _ r _ (by decide)
  · rw [enrich_text_eq]
    exact strContainsSub_append_self _ r

/-- Claim C2 witness: a concrete successful booking mapping is
rewritten to the enriched mapping. -/
theorem enrich_dict_success_witness :
    enrich_response "book-hotel"
        (PyVal.dict [("result", PyVal.str "Reservation 7 created"),
                     ("id", PyVal.int 3)])
      = some (PyVal.dict
          [("result", PyVal.str (enrich_text "Reservation 7 created")),
           ("id", PyVal.int 3)]) :=
  (enrich_dict_success
      [("result", PyVal.str "Reservation 7 created"), ("id", PyVal.int 3)]
      "Reservation 7 created" (by rfl) (by rfl)).1

/-- Claim C3: for any tool other than `book-hotel`, or any result whose
extracted text carries the `"Error"` marker, or any tool result of
unrecognized shape (neither mapping nor string), the enricher returns
nothing and the runtime keeps the original result. -/
theorem enrich_nonmatching_none (tool_name : String) (resp : PyVal)
    (h : tool_name ≠ "book-hotel"
        ∨ (∃ r, extractResult resp = some (PyVal.str r)
            ∧ strContainsSub r "Error" = true)
        ∨ extractResult resp = none) :
    enrich_response tool_name resp = none := by
  unfold enrich_response
  rcases h with h | ⟨r, hr, herr⟩ | h
  · cases hx : extractResult resp with
    | none => rfl
    | some v =>
      cases v with
      | str s =>
        by_cases hs : strContainsSub s "Error" = true
        · simp [hs]
        · simp [hs, h]
      | int n => rfl
      | dict d => rfl
      | pynone => rfl
  · rw [hr]
    simp [herr]
  · rw [h]

/-- Claim C3 witness: a successful search result is passed through
untouched. -/
theorem enrich_nonmatching_none_witness :
    enrich_response "search-hotels" (PyVal.str "Found hotel 3") = none :=
  enrich_nonmatching_none "search-hotels" (PyVal.str "Found hotel 3")
    (Or.inl (by decide))

/-- Claim C5: for a successful booking result shaped as a bare string,
the enricher returns a new string: the confirmation message
"Booking Confirmed!" and the 500-point loyalty bonus prepended, the
original result text appended as supplementary detail. -/
theorem enrich_str_success (s : String)
    (herr : strContainsSub s "Error" = false) :
    enrich_response "book-hotel" (PyVal.str s)
        = some (PyVal.str (enrich_text s)) ∧
    enrich_text s =
      "Booking Confirmed!\n You earned 500 Loyalty Points with this stay.\n\nSystem Details: "
        ++ s ∧
    strContainsSub (enrich_text s) "Booking Confirmed!" = true ∧
    strContainsSub (enrich_text s) "500 Loyalty Points" = true ∧
    strContainsSub (enrich_text s) s = true := by
  refine ⟨?_, enrich_text_eq s, ?_, ?_, ?_⟩
  · unfold enrich_response extractResult
    simp [herr]
  · rw [enrich_text_eq]
    exact strContainsSub_append_right _ s _ (by decide)
  · rw [enrich_text_eq]
    exact strContainsSub_append_right _ s _ (by decide)
  · rw [enrich_text_eq]
    exact strContainsSub_append_self _ s

/-- Claim C5 witness: a concrete successful booking string is
enriched. -/
theorem enrich_str_success_witness :
    enrich_response "book-hotel" (PyVal.str "Reservation 7 created")
      = some (PyVal.str (enrich_text "Reservation 7 created")) :=
  (enrich_str_success "Reservation 7 created" (by rfl)).1

/-- Claim C9: a booking-tool result shaped as a mapping whose `result`
field exists but is not a string makes the enricher return nothing,
even with no error marker in sight: the success check requires the
extracted result itself to be a string. -/
theorem enrich_nonstring_result_none (d : List (String × PyVal)) (v : PyVal)
    (hget : dictGetD d "result" (PyVal.str "") = v)
    (hnotstr : ∀ s, v ≠ PyVal.str s) :
    enrich_response "book-hotel" (PyVal.dict d) = none := by
  unfold enrich_response extractResult
  cases v with
  | str s => exact absurd rfl (hnotstr s)
  | int n => simp [hget]
  | dict d' => simp [hget]
  | pynone => simp [hget]

/-- Claim C9 witness: a mapping whose `result` field is the number 7 is
not enriched. -/
theorem enrich_nonstring_result_none_witness :
    enrich_response "book-hotel" (PyVal.dict [("result", PyVal.int 7)]) = none :=
  enrich_nonstring_result_none [("result", PyVal.int 7)] (PyVal.int 7)
    (by rfl) (fun s h => PyVal.noConfusion h)

/-- Claim C10: a booking-tool mapping with no `result` field at all is
treated as a success with empty text — `get` defaults to the empty
string, which carries no error marker — and the enricher returns a new
mapping whose `result` field is the enriched confirmation string with
empty supplementary detail. -/
theorem enrich_missing_result_default (d : List (String × PyVal))
    (hmiss : hasKey d "result" = false) :
    enrich_response "book-hotel" (PyVal.dict d)
        = some (PyVal.dict (dictSet d "result" (PyVal.str (enrich_text "")))) ∧
    enrich_text "" =
      "Booking Confirmed!\n You earned 500 Loyalty Points with this stay.\n\nSystem Details: " := by
  have hget : dictGetD d "result" (PyVal.str "") = PyVal.str "" :=
    dictGetD_of_not_hasKey d "result" (PyVal.str "") hmiss
  constructor
  · unfold enrich_response extractResult
    simp [hget]
    rfl
  · rfl

/-- Claim C10 witness: a mapping carrying only a status field gets the
default-success enrichment. -/
theorem enrich_missing_result_default_witness :
    enrich_response "book-hotel" (PyVal.dict [("status", PyVal.int 1)])
      = some (PyVal.dict
          [("status", PyVal.int 1),
           ("result", PyVal.str (enrich_text ""))]) :=
  (enrich_missing_result_default [("status", PyVal.int 1)] (by rfl)).1

/-! ### Claims about the turn driver -/

/-- Concatenation distributes over list append. -/
theorem concatAll_append (l1 l2 : List String) :
    concatAll (l1 ++ l2) = concatAll l1 ++ concatAll l2 := by
  induction l1 with
  | nil => simp [concatAll, String.empty_append]
  | cons s t ih => simp [concatAll, ih, String.append_assoc]

/-- The inner parts loop appends exactly the concatenation of the
parts' text fragments (an empty-string fragment is skipped by the
truthiness test, which changes nothing in the concatenation). -/
theorem foldl_collectText (ps : List TextPart) (acc : String) :
    ps.foldl collectText acc
      = acc ++ concatAll (ps.filterMap (fun p => p.text)) := by
  induction ps generalizing acc with
  | nil => simp [concatAll, String.append_empty]
  | cons p t ih =>
    cases hp : p.text with
    | none => simp [List.foldl, collectText, hp, ih]
    | some s =>
      by_cases hs : s = ""
      · simp [List.foldl, collectText, hp, hs, ih, concatAll,
          String.empty_append]
      · simp [List.foldl, collectText, hp, hs, ih, concatAll,
          String.append_assoc]

/-- One event appends exactly the concatenation of the fragments it
carries. -/
theorem processEvent_eq (acc : String) (ev : Event) :
    processEvent acc ev = acc ++ concatAll (eventFragments ev) := by
  obtain ⟨oc⟩ := ev
  unfold processEvent eventFragments
  cases oc with
  | none => simp [concatAll, String.append_empty]
  | some c =>
    obtain ⟨op⟩ := c
    cases op with
    | none => simp [concatAll, String.append_empty]
    | some ps =>
      cases ps with
      | nil => simp [concatAll, String.append_empty]
      | cons p t =>
        show (p :: t).foldl collectText acc
          = acc ++ concatAll ((p :: t).filterMap (fun q => q.text))
        rw [foldl_collectText]

/-- The outer event loop, for an arbitrary accumulator. -/
theorem foldl_processEvent (events : List Event) (acc : String) :
    events.foldl processEvent acc
      = acc ++ concatAll ((events.map eventFragments).flatten) := by
  induction events generalizing acc with
  | nil => simp [concatAll, String.append_empty]
  | cons ev t ih =>
    simp only [List.foldl, List.map, List.flatten, concatAll_append]
    rw [ih, processEvent_eq, String.append_assoc]

/-- Claim C7: for every finite sequence of response events, the turn
driver's final response string — the one it prints — equals the
concatenation, in arrival order, of all text fragments carried by the
events; events without content or without parts contribute nothing. -/
theorem run_chat_turn_concat (events : List Event) :
    run_chat_turn events = concatAll ((events.map eventFragments).flatten) := by
  rw [run_chat_turn, foldl_processEvent, String.empty_append]

/-! ### Concrete sanity checks -/

example : run_chat_turn
    [⟨some ⟨some [⟨some "Hel"⟩, ⟨none⟩, ⟨some "lo"⟩]⟩⟩,
     ⟨none⟩, ⟨some ⟨none⟩⟩, ⟨some ⟨some []⟩⟩,
     ⟨some ⟨some [⟨some " world"⟩]⟩⟩] = "Hello world" := by rfl

example : parseISODate "2025-01-18" = some (2025, 1, 18) := by decide
example : toordinal 2025 2 10 - toordinal 2025 1 18 = 23 := by decide
example : enfore_business_rules "update-hotel"
    [("checkin_date", PyVal.str "2025-01-18"), ("checkout_date", PyVal.str "2025-02-10")]
    = .ok (some blockedResult) := by rfl
example : enfore_business_rules "update-hotel"
    [("checkin_date", PyVal.str "2025-01-01"), ("checkout_date", PyVal.str "2025-01-15")]
    = .ok none := by rfl
example : enrich_response "book-hotel" (PyVal.str "Reservation 7 created")
    = some (PyVal.str ("Booking Confirmed!\n You earned 500 Loyalty Points with this stay.\n\nSystem Details: Reservation 7 created")) := by rfl
example : enrich_response "book-hotel" (PyVal.str "Error: no rooms") = none := by rfl
example : toString loyalty_bonus = "500" := by rfl
